import Mathlib

/-!
# Verification of the mental-health dashboard data pipeline

A shallow embedding of the data model and operations of the repository
(`src/app.py`, `src/modules/filters.py`, `src/modules/analysis.py`,
`src/modules/insights.py`, `src/modules/utils.py`) together with proofs of
the specification claims about them.

Pandas dataframes are modelled as a list of typed columns plus a list of
rows; cell values are rationals (for `float64` / `int64` columns, with an
explicit `vNA` for NaN/missing), strings (for `object` columns) or missing.
Float arithmetic is modelled exactly over `ℚ`; the special values produced
by float division (`inf`, `-inf`, `nan`) are modelled by the `Fl` type.
-/

/-- A pandas cell value: a number, a string, or NaN/None (missing). -/
inductive Value where
  | vQ (q : ℚ)
  | vS (s : String)
  | vNA
deriving DecidableEq, Repr

/-- The dtypes that the source distinguishes (`df[col].dtype in [np.float64, np.int64]`). -/
inductive Dtype where
  | float64
  | int64
  | object
deriving DecidableEq, Repr

/-- A pandas DataFrame: named, typed columns and a list of rows.
Each row is a list of cells aligned with `cols`. -/
structure DataFrame where
  cols : List (String × Dtype)
  rows : List (List Value)
deriving DecidableEq, Repr

/-- The column names of a dataframe (`df.columns`). -/
def colNames (df : DataFrame) : List String :=
  df.cols.map (·.1)

/-- Position of a column in the dataframe, `none` when absent. -/
def colIndex? (df : DataFrame) (name : String) : Option Nat :=
  (colNames df).indexOf? name

/-- The dtype of a column (`df[col].dtype`), `none` when the column is absent. -/
def dtypeOf (df : DataFrame) (name : String) : Option Dtype :=
  (df.cols.find? (fun c => c.1 = name)).map (·.2)

/-- `df[col].dtype in [np.float64, np.int64]`. -/
def numericDtype (df : DataFrame) (name : String) : Bool :=
  dtypeOf df name = some .float64 ∨ dtypeOf df name = some .int64

/-- Cell of a row at a column position; out-of-range reads give NaN. -/
def cell (row : List Value) (i : Nat) : Value :=
  row.getD i .vNA

/-- The values of a named column (`df[col]`), `none` when the column is absent. -/
def getCol (df : DataFrame) (name : String) : Option (List Value) :=
  (colIndex? df name).map (fun i => df.rows.map (cell · i))

/-- keep only the rows satisfying a boolean mask (`df[mask]`). -/
def maskRows (df : DataFrame) (p : List Value → Bool) : DataFrame :=
  ⟨df.cols, df.rows.filter p⟩

/-! ## `src/modules/filters.py` — `Filters.apply_filters`

The sidebar filter dictionary built by `Filters.add_sidebar_filters`: each key
is present (`some`) or absent (`none`).  `apply_filters` consists of eight
sequential guarded masking statements; each guard checks that the key is
present, that the selected value is not `'All'` (except the age range) and
that the column exists in the dataframe. -/

structure FilterDict where
  country : Option String := none
  age_range : Option (ℚ × ℚ) := none
  gender : Option String := none
  org_size : Option String := none
  remote_work : Option String := none
  tech_company : Option String := none
  employment : Option String := none
  dev_type : Option String := none
deriving DecidableEq, Repr

/-- Guard of an equality-filter statement:
`'key' in filters and filters['key'] != 'All' and 'Col' in filtered_df.columns`. -/
def eqCond (sel : Option String) (colName : String) (names : List String) : Bool :=
  match sel with
  | some v => decide (v ≠ "All") && decide (colName ∈ names)
  | none => false

/-- Row predicate of an equality filter: `filtered_df['Col'] == filters['key']`.
NaN and numeric cells compare unequal to a string (pandas `==` on mixed types). -/
def eqPred (sel : Option String) (colName : String) (names : List String)
    (row : List Value) : Bool :=
  match sel with
  | some v =>
    match names.indexOf? colName with
    | some i => match cell row i with
      | .vS s => s = v
      | _ => false
    | none => false
  | none => true

/-- Guard of the age-range statement: `'age_range' in filters and 'Age' in filtered_df.columns`. -/
def ageCond (sel : Option (ℚ × ℚ)) (names : List String) : Bool :=
  match sel with
  | some _ => decide ("Age" ∈ names)
  | none => false

/-- Row predicate of the age-range filter:
`(filtered_df['Age'] >= min_age) & (filtered_df['Age'] <= max_age)`;
NaN compares false. -/
def agePred (sel : Option (ℚ × ℚ)) (names : List String) (row : List Value) : Bool :=
  match sel with
  | some (lo, hi) =>
    match names.indexOf? "Age" with
    | some i => match cell row i with
      | .vQ q => decide (lo ≤ q) && decide (q ≤ hi)
      | _ => false
    | none => false
  | none => true

/-- The eight guarded masking statements of `Filters.apply_filters`, in source
order.  The guards test `filtered_df.columns`, which is invariant under row
masking, so they are evaluated against the initial column list. -/
def stepsOf (f : FilterDict) (names : List String) :
    List (Bool × (List Value → Bool)) :=
  [ (eqCond f.country "Country" names, eqPred f.country "Country" names),
    (ageCond f.age_range names, agePred f.age_range names),
    (eqCond f.gender "Gender" names, eqPred f.gender "Gender" names),
    (eqCond f.org_size "no_employees" names, eqPred f.org_size "no_employees" names),
    (eqCond f.remote_work "remote_work" names, eqPred f.remote_work "remote_work" names),
    (eqCond f.tech_company "tech_company" names, eqPred f.tech_company "tech_company" names),
    (eqCond f.employment "Employment" names, eqPred f.employment "Employment" names),
    (eqCond f.dev_type "DevType" names, eqPred f.dev_type "DevType" names) ]

/-- One guarded masking statement: `if cond: filtered_df = filtered_df[mask]`. -/
def filterStep (d : DataFrame) (cp : Bool × (List Value → Bool)) : DataFrame :=
  if cp.1 then maskRows d cp.2 else d

/-- `Filters.apply_filters(df, filters)` (filters.py lines 73-125): copy the
dataframe, then run the eight guarded masking statements in order. -/
def apply_filters (df : DataFrame) (f : FilterDict) : DataFrame :=
  (stepsOf f (colNames df)).foldl filterStep df

/-- Conjunction of the active row predicates of a statement list. -/
def stepsPred (steps : List (Bool × (List Value → Bool))) (row : List Value) : Bool :=
  steps.all (fun cp => !cp.1 || cp.2 row)

theorem filterStep_cols (d : DataFrame) (cp : Bool × (List Value → Bool)) :
    (filterStep d cp).cols = d.cols := by
  unfold filterStep maskRows
  split <;> rfl

theorem foldl_filterStep_cols (steps : List (Bool × (List Value → Bool))) :
    ∀ d : DataFrame, (steps.foldl filterStep d).cols = d.cols := by
  induction steps with
  | nil => intro d; rfl
  | cons s t ih => intro d; rw [List.foldl_cons, ih, filterStep_cols]

theorem apply_filters_cols (df : DataFrame) (f : FilterDict) :
    (apply_filters df f).cols = df.cols :=
  foldl_filterStep_cols _ df

/-- Fusion: the sequential guarded maskings are one `List.filter` by the
conjunction of the active predicates. -/
theorem foldl_filterStep_rows (steps : List (Bool × (List Value → Bool))) :
    ∀ d : DataFrame,
      (steps.foldl filterStep d).rows = d.rows.filter (stepsPred steps) := by
  induction steps with
  | nil =>
    intro d
    have h : stepsPred [] = fun _ => true := by
      funext r; rfl
    rw [h, List.filter_true]
    rfl
  | cons s t ih =>
    intro d
    rw [List.foldl_cons, ih]
    unfold filterStep
    by_cases hc : s.1
    · simp only [hc, if_pos, maskRows, List.filter_filter]
      apply List.filter_congr
      intro a _
      simp [stepsPred, hc, Bool.and_comm]
    · simp only [hc, if_neg, Bool.false_eq_true, not_false_iff]
      apply List.filter_congr
      intro a _
      simp [stepsPred, hc]

theorem apply_filters_rows (df : DataFrame) (f : FilterDict) :
    (apply_filters df f).rows
      = df.rows.filter (stepsPred (stepsOf f (colNames df))) :=
  foldl_filterStep_rows _ df

/-- The fields of the filter dictionary, for stating schema-drift claims. -/
inductive FilterField where
  | country | age_range | gender | org_size | remote_work
  | tech_company | employment | dev_type
deriving DecidableEq, Repr

/-- The dataframe column each filter field constrains. -/
def fieldColumn : FilterField → String
  | .country => "Country"
  | .age_range => "Age"
  | .gender => "Gender"
  | .org_size => "no_employees"
  | .remote_work => "remote_work"
  | .tech_company => "tech_company"
  | .employment => "Employment"
  | .dev_type => "DevType"

/-- Drop one entry from the filter dictionary (as if it had not been supplied). -/
def eraseField (f : FilterDict) : FilterField → FilterDict
  | .country => { f with country := none }
  | .age_range => { f with age_range := none }
  | .gender => { f with gender := none }
  | .org_size => { f with org_size := none }
  | .remote_work => { f with remote_work := none }
  | .tech_company => { f with tech_company := none }
  | .employment => { f with employment := none }
  | .dev_type => { f with dev_type := none }

/-! ## `src/app.py` — `get_age_group` and `filter_data`

The app-level pipeline works on the lowercase-named CSV columns
(`country`, `age`, `gender`, `employment`, `remotework`). -/

/-- `⌊q⌋` computed on the numerator/denominator (denominator is positive). -/
def floorQ (q : ℚ) : Int := q.num.fdiv q.den

/-- Python `int()` on a float truncates toward zero. -/
def truncQ (q : ℚ) : Int := if 0 ≤ q then floorQ q else -(floorQ (-q))

/-- `get_age_group(age)` (app.py lines 26-39) on a float64 age cell
(`none` models NaN/missing). -/
def get_age_group (age : Option ℚ) : String :=
  match age with
  | none => "Unknown"
  | some q =>
    let n := truncQ q
    if n < 25 then "Under 25"
    else if n < 35 then "25-34"
    else if n < 45 then "35-44"
    else if n < 55 then "45-54"
    else "55+"

/-- The filter dictionary built by the app-level `add_sidebar_filters`;
`genders` / `employment` / `remote` may be `None`. -/
structure AppFilters where
  data_source : String := "Both"
  countries : List String := []
  age_groups : List String := []
  genders : Option (List String) := none
  employment : Option (List String) := none
  remote : Option (List String) := none
deriving DecidableEq, Repr

/-- Python truthiness of `filters[k] and len(filters[k]) > 0` for an optional list. -/
def activeOpt : Option (List String) → Bool
  | some (_ :: _) => true
  | _ => false

/-- Exceptions that the app-level code can raise. -/
inductive PyErr where
  | keyError (k : String)
deriving DecidableEq, Repr

/-- Numeric view of a float64 cell. -/
def toQ? : Value → Option ℚ
  | .vQ q => some q
  | _ => none

/-- `df[name] = vals`: overwrite the column in place, or append it. -/
def setCol (df : DataFrame) (name : String) (dt : Dtype) (vals : List Value) :
    DataFrame :=
  match (colNames df).indexOf? name with
  | some i => ⟨df.cols.set i (name, dt), (df.rows.zip vals).map (fun rv => rv.1.set i rv.2)⟩
  | none => ⟨df.cols ++ [(name, dt)], (df.rows.zip vals).map (fun rv => rv.1 ++ [rv.2])⟩

/-- `df[df[col].isin(sel)]`; accessing an absent column raises `KeyError`. -/
def maskIsin (df : DataFrame) (colName : String) (sel : List String) :
    Except PyErr DataFrame :=
  match (colNames df).indexOf? colName with
  | some i => .ok (maskRows df (fun row => match cell row i with
      | .vS s => decide (s ∈ sel)
      | _ => false))
  | none => .error (.keyError colName)

/-! ### Python object state

To state mutation/frame claims we track the two objects the function can
reach: the caller's dataframe object and the object currently bound to
`filtered_df`, together with whether they are the same object.  `df.copy()`
severs aliasing; boolean-mask selection rebinds `filtered_df` to a fresh
object; in-place column assignment (`filtered_df['age_group'] = ...`) writes
through `filtered_df`, hitting the caller's object exactly when aliased. -/

structure ObjState where
  dfIn : DataFrame
  cur : DataFrame
  aliased : Bool
deriving DecidableEq, Repr

/-- `filtered_df = df.copy()`. -/
def copyStep (df : DataFrame) : ObjState := ⟨df, df, false⟩

/-- `filtered_df = <freshly allocated dataframe>`. -/
def rebindStep (s : ObjState) (d : DataFrame) : ObjState := ⟨s.dfIn, d, false⟩

/-- An in-place write through `filtered_df`. -/
def mutateStep (s : ObjState) (g : DataFrame → DataFrame) : ObjState :=
  ⟨if s.aliased then g s.dfIn else s.dfIn, g s.cur, s.aliased⟩

/-- One guarded masking statement of `Filters.apply_filters`, at object level. -/
def objStep (s : ObjState) (cp : Bool × (List Value → Bool)) : ObjState :=
  if cp.1 then rebindStep s (maskRows s.cur cp.2) else s

/-- `Filters.apply_filters` at object level: copy, then the eight statements. -/
def apply_filters_obj (df : DataFrame) (f : FilterDict) : ObjState :=
  (stepsOf f (colNames df)).foldl objStep (copyStep df)

/-- The age-group derivation used by `filter_data` (app.py line 121). -/
def ageGroupVals (d : DataFrame) : List Value :=
  ((getCol d "age").getD []).map (fun v => Value.vS (get_age_group (toQ? v)))

/-- A guarded `filtered_df = filtered_df[filtered_df[col].isin(sel)]` statement;
a raised `KeyError` aborts the function. -/
def objMask (s : ObjState) (colName : String) (sel : List String) (active : Bool) :
    ObjState × Except PyErr Unit :=
  if active then
    match maskIsin s.cur colName sel with
    | .ok d => (rebindStep s d, .ok ())
    | .error e => (s, .error e)
  else (s, .ok ())

/-- The statements of `filter_data` (app.py lines 112-136), in source order. -/
inductive PyOp where
  | mask (colName : String) (sel : List String) (active : Bool)
  | ageSection (age_groups : List String)

/-- Run one statement. The age section first assigns the derived `age_group`
column in place, then optionally masks on it. -/
def runOp (s : ObjState) : PyOp → ObjState × Except PyErr Unit
  | .mask colName sel active => objMask s colName sel active
  | .ageSection ags =>
    if "age" ∈ colNames s.cur then
      let s1 := mutateStep s (fun d => setCol d "age_group" .object (ageGroupVals d))
      objMask s1 "age_group" ags (decide (ags ≠ []))
    else (s, .ok ())

/-- Run statements in order, aborting at the first raised exception. -/
def runOps (s : ObjState) : List PyOp → ObjState × Except PyErr Unit
  | [] => (s, .ok ())
  | op :: ops =>
    match runOp s op with
    | (s', .ok _) => runOps s' ops
    | (s', .error e) => (s', .error e)

/-- The statement list of `filter_data`, from the filter dict and dataset type. -/
def opsOf (fs : AppFilters) (dataset_type : String) : List PyOp :=
  [ .mask "country" fs.countries (decide (fs.countries ≠ [])),
    .ageSection fs.age_groups,
    .mask "gender" (fs.genders.getD []) (decide (dataset_type = "mental_health") && activeOpt fs.genders),
    .mask "employment" (fs.employment.getD []) (decide (dataset_type = "stackoverflow") && activeOpt fs.employment),
    .mask "remotework" (fs.remote.getD []) (decide (dataset_type = "stackoverflow") && activeOpt fs.remote) ]

/-- `filter_data(df, filters, dataset_type)` at object level. -/
def filter_data_obj (df : DataFrame) (fs : AppFilters) (dataset_type : String) :
    ObjState × Except PyErr Unit :=
  runOps (copyStep df) (opsOf fs dataset_type)

/-- `filter_data` as a value-level function: the returned dataframe, or the
exception it raises. -/
def filter_data (df : DataFrame) (fs : AppFilters) (dataset_type : String) :
    Except PyErr DataFrame :=
  match filter_data_obj df fs dataset_type with
  | (s, .ok _) => .ok s.cur
  | (_, .error e) => .error e

/-! ### Structural lemmas for the filter theorems -/

theorem DataFrame.eqOf {a b : DataFrame} (h1 : a.cols = b.cols)
    (h2 : a.rows = b.rows) : a = b := by
  cases a; cases b; cases h1; cases h2; rfl

theorem eqCond_absent (sel : Option String) (colName : String)
    (names : List String) (h : colName ∉ names) :
    eqCond sel colName names = false := by
  cases sel <;> simp [eqCond, h]

theorem ageCond_absent (sel : Option (ℚ × ℚ)) (names : List String)
    (h : "Age" ∉ names) : ageCond sel names = false := by
  cases sel <;> simp [ageCond, h]

theorem objStep_dfIn (s : ObjState) (cp : Bool × (List Value → Bool)) :
    (objStep s cp).dfIn = s.dfIn := by
  unfold objStep rebindStep
  split <;> rfl

theorem foldl_objStep_spec (steps : List (Bool × (List Value → Bool))) :
    ∀ s : ObjState,
      (steps.foldl objStep s).dfIn = s.dfIn
      ∧ (s.aliased = false → (steps.foldl objStep s).aliased = false)
      ∧ (steps.foldl objStep s).cur = steps.foldl filterStep s.cur := by
  induction steps with
  | nil => intro s; exact ⟨rfl, fun h => h, rfl⟩
  | cons c t ih =>
    intro s
    rw [List.foldl_cons, List.foldl_cons]
    refine ⟨?_, ?_, ?_⟩
    · rw [(ih (objStep s c)).1, objStep_dfIn]
    · intro h
      refine (ih (objStep s c)).2.1 ?_
      unfold objStep rebindStep
      split
      · rfl
      · exact h
    · rw [(ih (objStep s c)).2.2]
      congr 1
      unfold objStep rebindStep filterStep
      split <;> rfl

theorem objMask_dfIn (s : ObjState) (c : String) (sel : List String) (a : Bool) :
    (objMask s c sel a).1.dfIn = s.dfIn := by
  unfold objMask rebindStep
  split
  · split <;> rfl
  · rfl

theorem objMask_aliased (s : ObjState) (c : String) (sel : List String) (a : Bool)
    (h : s.aliased = false) : (objMask s c sel a).1.aliased = false := by
  unfold objMask rebindStep
  split
  · split
    · rfl
    · exact h
  · exact h

theorem runOp_spec (s : ObjState) (op : PyOp) (h : s.aliased = false) :
    (runOp s op).1.dfIn = s.dfIn ∧ (runOp s op).1.aliased = false := by
  cases op with
  | mask colName sel active =>
    exact ⟨objMask_dfIn .., objMask_aliased _ _ _ _ h⟩
  | ageSection ags =>
    by_cases hage : "age" ∈ colNames s.cur
    · have hrw : runOp s (.ageSection ags)
          = objMask (mutateStep s fun d => setCol d "age_group" .object (ageGroupVals d))
              "age_group" ags (decide (ags ≠ [])) := by
        simp [runOp, hage]
      rw [hrw]
      refine ⟨?_, ?_⟩
      · rw [objMask_dfIn]
        simp [mutateStep, h]
      · exact objMask_aliased _ _ _ _ (by simp [mutateStep, h])
    · have hrw : runOp s (.ageSection ags) = (s, .ok ()) := by
        simp [runOp, hage]
      rw [hrw]
      exact ⟨rfl, h⟩

theorem runOps_spec (ops : List PyOp) :
    ∀ s : ObjState, s.aliased = false →
      (runOps s ops).1.dfIn = s.dfIn ∧ (runOps s ops).1.aliased = false := by
  induction ops with
  | nil => intro s h; exact ⟨rfl, h⟩
  | cons op t ih =>
    intro s h
    unfold runOps
    cases hr : runOp s op with
    | mk s' r =>
      have hspec := runOp_spec s op h
      rw [hr] at hspec
      cases r with
      | ok u =>
        have := ih s' hspec.2
        simp only []
        exact ⟨this.1.trans hspec.1, this.2⟩
      | error e =>
        exact hspec

/-- C7: `Filters.apply_filters` is idempotent — applying the same filter
dictionary to its own output returns exactly the same dataframe (same columns
and records) as applying it once. -/
theorem c7_apply_filters_idempotent (df : DataFrame) (f : FilterDict) :
    apply_filters (apply_filters df f) f = apply_filters df f := by
  have hcols : colNames (apply_filters df f) = colNames df := by
    unfold colNames
    rw [apply_filters_cols]
  apply DataFrame.eqOf
  · rw [apply_filters_cols, apply_filters_cols]
  · rw [apply_filters_rows (apply_filters df f) f, hcols,
      apply_filters_rows df f, List.filter_filter]
    apply List.filter_congr
    intro a _
    simp

/-- C4 (amended): for `Filters.apply_filters`, a filter entry whose column is
absent from the dataframe is a no-op — the result equals that of applying the
dictionary with that entry removed, and no exception is raised (the function
is total).  The app-level `filter_data` does not share this property (see the
counterexample theorem). -/
theorem c4_absent_column_filter_noop (df : DataFrame) (f : FilterDict)
    (field : FilterField) (h : fieldColumn field ∉ colNames df) :
    apply_filters df (eraseField f field) = apply_filters df f := by
  cases field with
  | country =>
    simp only [fieldColumn] at h
    simp [apply_filters, stepsOf, eraseField,
      eqCond_absent f.country _ _ h, eqCond_absent (none : Option String) _ _ h,
      filterStep]
  | age_range =>
    simp only [fieldColumn] at h
    simp [apply_filters, stepsOf, eraseField,
      ageCond_absent f.age_range _ h, ageCond_absent (none : Option (ℚ × ℚ)) _ h,
      filterStep]
  | gender =>
    simp only [fieldColumn] at h
    simp [apply_filters, stepsOf, eraseField,
      eqCond_absent f.gender _ _ h, eqCond_absent (none : Option String) _ _ h,
      filterStep]
  | org_size =>
    simp only [fieldColumn] at h
    simp [apply_filters, stepsOf, eraseField,
      eqCond_absent f.org_size _ _ h, eqCond_absent (none : Option String) _ _ h,
      filterStep]
  | remote_work =>
    simp only [fieldColumn] at h
    simp [apply_filters, stepsOf, eraseField,
      eqCond_absent f.remote_work _ _ h, eqCond_absent (none : Option String) _ _ h,
      filterStep]
  | tech_company =>
    simp only [fieldColumn] at h
    simp [apply_filters, stepsOf, eraseField,
      eqCond_absent f.tech_company _ _ h, eqCond_absent (none : Option String) _ _ h,
      filterStep]
  | employment =>
    simp only [fieldColumn] at h
    simp [apply_filters, stepsOf, eraseField,
      eqCond_absent f.employment _ _ h, eqCond_absent (none : Option String) _ _ h,
      filterStep]
  | dev_type =>
    simp only [fieldColumn] at h
    simp [apply_filters, stepsOf, eraseField,
      eqCond_absent f.dev_type _ _ h, eqCond_absent (none : Option String) _ _ h,
      filterStep]

/-- A dataframe without a `country` column (schema drift at the app level). -/
def dfGenderOnly : DataFrame := ⟨[("gender", .object)], [[.vS "M"]]⟩

/-- A sidebar selection that activates the country filter. -/
def fsCountry : AppFilters := { countries := ["United States"] }

/-- C4 counterexample: the app-level `filter_data` is *not* a no-op on a
filter whose column is absent — with a country selected and no `country`
column it raises `KeyError('country')` instead of returning the input rows
(app.py line 117 has no column-presence guard). -/
theorem c4_counterexample :
    filter_data dfGenderOnly fsCountry "mental_health"
      = .error (.keyError "country") := by rfl

/-- C9: neither filtering entry point mutates its input.  At object level,
after `Filters.apply_filters` or the app-level `filter_data` runs, the
caller's dataframe object holds exactly its original columns, rows and
values, and `filtered_df` is not an alias of it (the result is a fresh
object); for `apply_filters` the returned object's value is the pure
filtering result. -/
theorem c9_no_input_mutation :
    (∀ (df : DataFrame) (f : FilterDict),
        (apply_filters_obj df f).dfIn = df
        ∧ (apply_filters_obj df f).aliased = false
        ∧ (apply_filters_obj df f).cur = apply_filters df f)
    ∧ (∀ (df : DataFrame) (fs : AppFilters) (dst : String),
        (filter_data_obj df fs dst).1.dfIn = df
        ∧ (filter_data_obj df fs dst).1.aliased = false) := by
  constructor
  · intro df f
    have h := foldl_objStep_spec (stepsOf f (colNames df)) (copyStep df)
    exact ⟨h.1, h.2.1 rfl, h.2.2⟩
  · intro df fs dst
    have h := runOps_spec (opsOf fs dst) (copyStep df) rfl
    exact ⟨h.1, h.2⟩

/-! ## `src/modules/analysis.py` — groupby machinery and the two analyses -/

/-- Total order used to sort group keys ascending (pandas sorts group keys;
string keys sort lexicographically). -/
def valLeB : Value → Value → Bool
  | .vQ p, .vQ q => decide (p ≤ q)
  | .vQ _, .vS _ => true
  | .vS s, .vS t => decide (s ≤ t)
  | .vS _, .vQ _ => false
  | .vNA, _ => true
  | _, .vNA => false

/-- Insertion into a sorted list (stable insertion sort). -/
def insertBy (le : α → α → Bool) (a : α) : List α → List α
  | [] => [a]
  | b :: bs => if le a b then a :: b :: bs else b :: insertBy le a bs

/-- Insertion sort by a boolean order. -/
def sortBy (le : α → α → Bool) (l : List α) : List α :=
  l.foldr (insertBy le) []

/-- The group keys of `df.groupby(col)`: the distinct non-NaN values of the
column, in ascending order. -/
def groupKeys (vals : List Value) : List Value :=
  sortBy valLeB (vals.filter (fun v => decide (v ≠ Value.vNA))).dedup

/-- `df.groupby` at column position `i`: each key with the rows of its group
(groups are nonempty by construction). -/
def groupRows (df : DataFrame) (i : Nat) : List (Value × List (List Value)) :=
  (groupKeys (df.rows.map (cell · i))).map
    (fun k => (k, df.rows.filter (fun r => decide (cell r i = k))))

/-- Mean of a boolean indicator over a group (`(x == v).mean()`,
`x.isin(vs).mean()`): NaN cells count as `False`, the divisor is the group
size. -/
def indMean (g : List (List Value)) (i : Nat) (p : Value → Bool) : ℚ :=
  ((g.countP (fun r => p (cell r i))) : ℚ) / (g.length : ℚ)

/-- `'treatment': lambda x: (x == 'Yes').mean() * 10` (analysis.py line 209). -/
def treatComp (g : List (List Value)) (ti : Nat) : ℚ :=
  indMean g ti (fun v => decide (v = .vS "Yes")) * 10

/-- `'work_interfere': lambda x: (x.isin(['Often', 'Sometimes'])).mean() * -5`
(analysis.py line 210). -/
def interfereComp (g : List (List Value)) (wi : Nat) : ℚ :=
  indMean g wi (fun v => decide (v = .vS "Often") || decide (v = .vS "Sometimes")) * (-5)

/-- `'mental_health_consequence': lambda x: (x == 'Yes').mean() * -5`
(analysis.py line 211). -/
def consequenceComp (g : List (List Value)) (mi : Nat) : ℚ :=
  indMean g mi (fun v => decide (v = .vS "Yes")) * (-5)

/-- The pre-clip combination of analysis.py line 215:
`country_stats['treatment'] - country_stats['work_interfere'] -
country_stats['mental_health_consequence']`. -/
def countryPre (ti wi mi : Nat) (g : List (List Value)) : ℚ :=
  treatComp g ti - interfereComp g wi - consequenceComp g mi

/-- `Series.clip(lo, hi)`. -/
def clipQ (q lo hi : ℚ) : ℚ := max lo (min q hi)

/-- `Analysis.create_country_mental_health_index(df)` (analysis.py lines
179-229), restricted to the `'Mental Health Index'` column it computes:
each country key is mapped to the line-215 combination clipped to `[0, 10]`
(line 216).  `none` models the synthetic fallback branch (lines 196-205)
taken when a required column is missing, whose output is random. -/
def create_country_mental_health_index (df : DataFrame) :
    Option (List (Value × ℚ)) :=
  match colIndex? df "Country", colIndex? df "treatment",
      colIndex? df "work_interfere", colIndex? df "mental_health_consequence" with
  | some ci, some ti, some wi, some mi =>
    some ((groupRows df ci).map
      (fun kg => (kg.1, clipQ (countryPre ti wi mi kg.2) 0 10)))
  | _, _, _, _ => none

/-- The index formula as the specification words it: the three weighted
components *summed* per group key and then clipped. -/
def specCountryIndex (ti wi mi : Nat) (g : List (List Value)) : ℚ :=
  clipQ (treatComp g ti + interfereComp g wi + consequenceComp g mi) 0 10

theorem clipQ_lower (q : ℚ) : 0 ≤ clipQ q 0 10 := le_max_left 0 _

theorem clipQ_upper (q : ℚ) : clipQ q 0 10 ≤ 10 :=
  max_le (by norm_num) (min_le_right q 10)

/-- C5: whenever the required columns are present, every entry of the
country mental-health index is the line-215 combination clipped to `[0, 10]`
— the clip is applied exactly once, to the combined value, never to an
individual component — and therefore every index value lies in `[0, 10]`. -/
theorem c5_index_clipped_once_and_bounded (df : DataFrame)
    (out : List (Value × ℚ)) (ci ti wi mi : Nat)
    (hci : colIndex? df "Country" = some ci)
    (hti : colIndex? df "treatment" = some ti)
    (hwi : colIndex? df "work_interfere" = some wi)
    (hmi : colIndex? df "mental_health_consequence" = some mi)
    (hout : create_country_mental_health_index df = some out) :
    ∀ kv ∈ out, (0 ≤ kv.2 ∧ kv.2 ≤ 10)
      ∧ ∃ g, (kv.1, g) ∈ groupRows df ci
          ∧ kv.2 = clipQ (countryPre ti wi mi g) 0 10 := by
  intro kv hkv
  unfold create_country_mental_health_index at hout
  rw [hci, hti, hwi, hmi] at hout
  have hmap : kv ∈ (groupRows df ci).map
      (fun kg => (kg.1, clipQ (countryPre ti wi mi kg.2) 0 10)) := by
    have := Option.some.inj hout
    rw [this]
    exact hkv
  rcases List.mem_map.mp hmap with ⟨kg, hkg, hkveq⟩
  subst hkveq
  exact ⟨⟨clipQ_lower _, clipQ_upper _⟩, kg.2, by simpa using hkg, rfl⟩

/-- A one-country dataframe on which the index formula's sign slip shows:
the single respondent has no treatment, frequent work interference and no
feared consequences. -/
def dfIdx : DataFrame :=
  ⟨[("Country", .object), ("treatment", .object),
    ("work_interfere", .object), ("mental_health_consequence", .object)],
   [[.vS "A", .vS "No", .vS "Often", .vS "No"]]⟩

/-- The single row of `dfIdx`. -/
def rowIdxA : List Value := [.vS "A", .vS "No", .vS "Often", .vS "No"]

/-- C1: evaluation at the failing input.  On `dfIdx` the code's line 215
*subtracts* the already-negatively-weighted components, so the country with
100% work interference gets index 5, whereas the specified linear combination
(weights +10, −5, −5, summed, then clipped) gives 0: a higher interference
rate *raises* the code's pre-clip index.  The code's own component comments
(`* -5` for the adverse factors) make the subtraction a sign slip. -/
theorem c1_code_bug_evaluation :
    create_country_mental_health_index dfIdx = some [(.vS "A", 5)]
    ∧ specCountryIndex 1 2 3 [rowIdxA] = 0
    ∧ countryPre 1 2 3 [rowIdxA] = 5
    ∧ treatComp [rowIdxA] 1 + interfereComp [rowIdxA] 2
        + consequenceComp [rowIdxA] 3 = -5 := by
  refine ⟨?_, ?_, ?_, ?_⟩ <;> with_unfolding_all rfl

/-- Witness for C5 at a concrete input. -/
theorem c5_index_clipped_once_and_bounded_witness :
    (0 ≤ ((Value.vS "A", (5 : ℚ))).2 ∧ ((Value.vS "A", (5 : ℚ))).2 ≤ 10)
    ∧ ∃ g, (((Value.vS "A", (5 : ℚ))).1, g) ∈ groupRows dfIdx 0
        ∧ ((Value.vS "A", (5 : ℚ))).2 = clipQ (countryPre 1 2 3 g) 0 10 := by
  exact c5_index_clipped_once_and_bounded dfIdx [(.vS "A", 5)] 0 1 2 3
    rfl rfl rfl rfl (by with_unfolding_all rfl) (.vS "A", 5)
    (by with_unfolding_all decide)

/-- One column's update of the score series (analysis.py lines 35-40):
`scores += df[col].isin(positive_values[col]).astype(int)` then
`scores -= df[col].isin(negative_values[col]).astype(int)`; a column absent
from the dataframe, or from a dict, contributes nothing. -/
def scoreStep (df : DataFrame) (pos neg : List (String × List Value))
    (scores : List Int) (col : String) : List Int :=
  match colIndex? df col with
  | some i =>
    let s1 := match pos.lookup col with
      | some vs => scores.zipWith
          (fun s r => s + (if cell r i ∈ vs then (1 : Int) else 0)) df.rows
      | none => scores
    match neg.lookup col with
    | some vs => s1.zipWith
        (fun s r => s - (if cell r i ∈ vs then (1 : Int) else 0)) df.rows
    | none => s1
  | none => scores

/-- `Analysis.calculate_mental_health_score(df, columns, positive_values,
negative_values)` (analysis.py lines 10-42): a zero series indexed like `df`,
updated per listed column. -/
def calculate_mental_health_score (df : DataFrame) (columns : List String)
    (positive_values negative_values : List (String × List Value)) : List Int :=
  columns.foldl (scoreStep df positive_values negative_values)
    (List.replicate df.rows.length 0)

theorem mem_zipWith {f : α → β → γ} :
    ∀ {as : List α} {bs : List β} {c : γ},
      c ∈ List.zipWith f as bs → ∃ a b, a ∈ as ∧ b ∈ bs ∧ c = f a b := by
  intro as
  induction as with
  | nil => intro bs c h; simp [List.zipWith] at h
  | cons a as ih =>
    intro bs c h
    cases bs with
    | nil => simp [List.zipWith] at h
    | cons b bs =>
      rw [List.zipWith_cons_cons] at h
      rcases List.mem_cons.mp h with h1 | h2
      · exact ⟨a, b, List.mem_cons_self .., List.mem_cons_self .., h1⟩
      · rcases ih h2 with ⟨a', b', ha, hb, hc⟩
        exact ⟨a', b', List.mem_cons_of_mem _ ha, List.mem_cons_of_mem _ hb, hc⟩

theorem zipWith_zipWith_same (g1 g2 : α → β → α) :
    ∀ (as : List α) (bs : List β),
      (as.zipWith g1 bs).zipWith g2 bs
        = as.zipWith (fun a b => g2 (g1 a b) b) bs := by
  intro as
  induction as with
  | nil => intro bs; simp
  | cons a as ih =>
    intro bs
    cases bs with
    | nil => simp
    | cons b bs => simp [List.zipWith_cons_cons, ih]

theorem scoreStep_length (df : DataFrame) (pos neg : List (String × List Value))
    (scores : List Int) (col : String)
    (hlen : scores.length = df.rows.length) :
    (scoreStep df pos neg scores col).length = df.rows.length := by
  unfold scoreStep
  split
  · split <;> split <;>
      simp [List.length_zipWith, hlen]
  · exact hlen

theorem scoreStep_bound (df : DataFrame) (pos neg : List (String × List Value))
    (scores : List Int) (col : String) (B : Int)
    (hb : ∀ s ∈ scores, -B ≤ s ∧ s ≤ B) :
    ∀ x ∈ scoreStep df pos neg scores col, -(B + 1) ≤ x ∧ x ≤ B + 1 := by
  have hweak : ∀ s ∈ scores, -(B + 1) ≤ s ∧ s ≤ B + 1 := by
    intro s hs
    rcases hb s hs with ⟨h1, h2⟩
    constructor <;> omega
  unfold scoreStep
  split
  · split <;> split
    · -- both dicts: two zipWith updates over the same rows fuse
      rw [zipWith_zipWith_same]
      intro x hx
      rcases mem_zipWith hx with ⟨s, r, hs, _, hxeq⟩
      rcases hb s hs with ⟨h1, h2⟩
      subst hxeq
      constructor <;> split <;> split <;> omega
    · -- positive dict only
      intro x hx
      rcases mem_zipWith hx with ⟨s, r, hs, _, hxeq⟩
      rcases hb s hs with ⟨h1, h2⟩
      subst hxeq
      constructor <;> split <;> omega
    · -- negative dict only
      intro x hx
      rcases mem_zipWith hx with ⟨s, r, hs, _, hxeq⟩
      rcases hb s hs with ⟨h1, h2⟩
      subst hxeq
      constructor <;> split <;> omega
    · exact hweak
  · exact hweak

theorem score_foldl_spec (df : DataFrame) (pos neg : List (String × List Value)) :
    ∀ (cs : List String) (scores : List Int) (B : Int),
      scores.length = df.rows.length →
      (∀ s ∈ scores, -B ≤ s ∧ s ≤ B) →
      (cs.foldl (scoreStep df pos neg) scores).length = df.rows.length
      ∧ ∀ s ∈ cs.foldl (scoreStep df pos neg) scores,
          -(B + cs.length) ≤ s ∧ s ≤ B + cs.length := by
  intro cs
  induction cs with
  | nil =>
    intro scores B hlen hb
    refine ⟨hlen, ?_⟩
    intro s hs
    rcases hb s hs with ⟨h1, h2⟩
    simp only [List.length_nil]
    constructor <;> omega
  | cons c t ih =>
    intro scores B hlen hb
    rw [List.foldl_cons]
    have hlen' := scoreStep_length df pos neg scores c hlen
    have hb' := scoreStep_bound df pos neg scores c B hb
    rcases ih (scoreStep df pos neg scores c) (B + 1) hlen' hb' with ⟨hl, hbb⟩
    refine ⟨hl, ?_⟩
    intro s hs
    rcases hbb s hs with ⟨h1, h2⟩
    simp only [List.length_cons]
    push_cast at h1 h2 ⊢
    constructor <;> omega

/-- C10: `calculate_mental_health_score` returns one integer score per row of
the input dataframe, and with `n` listed columns every score lies in
`[-n, n]`: each listed column contributes at most `+1` and at least `-1`, and
columns absent from the dataframe contribute `0`. -/
theorem c10_score_per_row_bounded (df : DataFrame) (columns : List String)
    (positive_values negative_values : List (String × List Value)) :
    (calculate_mental_health_score df columns positive_values negative_values).length
        = df.rows.length
    ∧ ∀ s ∈ calculate_mental_health_score df columns positive_values negative_values,
        -(columns.length : Int) ≤ s ∧ s ≤ (columns.length : Int) := by
  have h := score_foldl_spec df positive_values negative_values columns
    (List.replicate df.rows.length 0) 0
    (by simp) (by intro s hs; rcases List.eq_of_mem_replicate hs with rfl; simp)
  rcases h with ⟨hl, hb⟩
  refine ⟨hl, ?_⟩
  intro s hs
  rcases hb s hs with ⟨h1, h2⟩
  constructor <;> omega

/-! ## `src/modules/utils.py` — `Utils.bin_age_groups` -/

/-- One `pd.cut` lookup with `right=False`: the label of the first interval
`[b_i, b_{i+1})` containing `q`; `none` (NaN) when no interval contains it. -/
def cutLookup : List ℚ → List String → ℚ → Option String
  | b1 :: b2 :: bs, l :: ls, q =>
    if b1 ≤ q ∧ q < b2 then some l else cutLookup (b2 :: bs) ls q
  | _, _, _ => none

/-- `pd.cut` of one cell: non-numeric and NaN cells, and values outside every
interval, give NaN. -/
def cutVal (bins : List ℚ) (labels : List String) (v : Value) : Value :=
  match v with
  | .vQ q =>
    match cutLookup bins labels q with
    | some l => .vS l
    | none => .vNA
  | _ => .vNA

/-- `Utils.bin_age_groups(df, age_col, bins, labels)` (modules/utils.py lines
168-184): when the age column exists, copy the dataframe and derive
`age_group` with `pd.cut(..., right=False)`; default bins
`[0, 25, 35, 45, 55, 100]`, default labels
`['18-24', '25-34', '35-44', '45-54', '55+']`. -/
def bin_age_groups (df : DataFrame) (age_col : String := "Age")
    (bins : Option (List ℚ) := none) (labels : Option (List String) := none) :
    DataFrame :=
  if age_col ∈ colNames df then
    let bins := bins.getD [0, 25, 35, 45, 55, 100]
    let labels := labels.getD ["18-24", "25-34", "35-44", "45-54", "55+"]
    setCol df "age_group" .object
      (((getCol df age_col).getD []).map (cutVal bins labels))
  else df

/-- A one-row dataframe with age 20. -/
def dfAge20 : DataFrame := ⟨[("Age", .float64)], [[.vQ 20]]⟩

/-- Ages 20, 30, 40, 50, 60 (the specification's scenario 3). -/
def dfAges : DataFrame :=
  ⟨[("Age", .float64)], [[.vQ 20], [.vQ 30], [.vQ 40], [.vQ 50], [.vQ 60]]⟩

/-- A one-row dataframe with a missing age. -/
def dfAgeNA : DataFrame := ⟨[("Age", .float64)], [[.vNA]]⟩

/-- A one-row dataframe with age 100. -/
def dfAge100 : DataFrame := ⟨[("Age", .float64)], [[.vQ 100]]⟩

/-- C8 counterexample: `bin_age_groups` does not bucket age 20 into the
claimed bucket set — it labels it `'18-24'`, which is not one of
`{Under 25, 25-34, 35-44, 45-54, 55+, Unknown}`, so the claimed totality over
that fixed bucket set fails for the second implementation. -/
theorem c8_counterexample :
    getCol (bin_age_groups dfAge20) "age_group" = some [.vS "18-24"]
    ∧ "18-24" ∉ ["Under 25", "25-34", "35-44", "45-54", "55+", "Unknown"] := by
  constructor
  · with_unfolding_all rfl
  · decide

/-- C8 (amended): `get_age_group` is total and partitioning on
numeric-or-missing ages — every age gets exactly one bucket of the fixed set,
missing age gets `Unknown` and only missing age gets `Unknown`, and ages
20/30/40/50/60 land in the five age buckets with zero Unknowns.
`bin_age_groups`, however, uses `'18-24'` as its first label and assigns NaN
(no bucket, not `Unknown`) to missing ages and to ages outside `[0, 100)`. -/
theorem c8_amended_bucketing :
    (∀ a : Option ℚ,
      get_age_group a ∈ ["Under 25", "25-34", "35-44", "45-54", "55+", "Unknown"])
    ∧ get_age_group none = "Unknown"
    ∧ (∀ q : ℚ, get_age_group (some q) ≠ "Unknown")
    ∧ (([20, 30, 40, 50, 60] : List ℚ).map (fun q => get_age_group (some q))
        = ["Under 25", "25-34", "35-44", "45-54", "55+"])
    ∧ getCol (bin_age_groups dfAges) "age_group"
        = some [.vS "18-24", .vS "25-34", .vS "35-44", .vS "45-54", .vS "55+"]
    ∧ getCol (bin_age_groups dfAgeNA) "age_group" = some [.vNA]
    ∧ getCol (bin_age_groups dfAge100) "age_group" = some [.vNA] := by
  refine ⟨?_, rfl, ?_, ?_, ?_, ?_, ?_⟩
  · intro a
    cases a with
    | none => simp [get_age_group]
    | some q =>
      simp only [get_age_group]
      split_ifs <;> simp
  · intro q
    simp only [get_age_group]
    split_ifs <;> decide
  · with_unfolding_all rfl
  · with_unfolding_all rfl
  · with_unfolding_all rfl
  · with_unfolding_all rfl

/-! ## `src/modules/insights.py` — the three insight generators

Float formatting (`f"{x:.2f}"`, `f"{x:.1f}"`) is modelled exactly over `ℚ`
with round-half-to-even; NaN formats as `"nan"`, infinities as `"inf"` /
`"-inf"`, as Python does. -/

/-- Round half to even. -/
def roundHE (x : ℚ) : Int :=
  let f := floorQ x
  let r := x - (f : ℚ)
  if r < 1/2 then f
  else if 1/2 < r then f + 1
  else if f % 2 = 0 then f else f + 1

/-- Zero-pad a digit string on the left to width `k`. -/
def padZeros (s : String) (k : Nat) : String :=
  String.mk (List.replicate (k - s.length) '0') ++ s

/-- Python fixed-point formatting of an exact value. -/
def fmtFixed (q : ℚ) (prec : Nat) : String :=
  let n := roundHE (q * ((10 : ℚ) ^ prec))
  let a := n.natAbs
  let ipStr := toString (a / 10 ^ prec)
  let fpStr := padZeros (toString (a % 10 ^ prec)) prec
  let core := if prec = 0 then ipStr else ipStr ++ "." ++ fpStr
  if q < 0 then "-" ++ core else core

/-- `f"{x:.2f}"` where `x` may be NaN. -/
def fmtOpt2 : Option ℚ → String
  | none => "nan"
  | some q => fmtFixed q 2

/-- A float that may be NaN or infinite (float division never raises). -/
inductive Fl where
  | num (q : ℚ)
  | pinf
  | ninf
  | nan
deriving DecidableEq, Repr

/-- `((a - b) / b) * 100` on possibly-NaN floats: division by zero gives a
signed infinity (or NaN for `0/0`). -/
def diffPctFl : Option ℚ → Option ℚ → Fl
  | some a, some b =>
    if b ≠ 0 then .num ((a - b) / b * 100)
    else if 0 < a - b then .pinf
    else if a - b < 0 then .ninf
    else .nan
  | _, _ => .nan

/-- `f"{x:.1f}"` on a float that may be NaN or infinite. -/
def fmtFl1 : Fl → String
  | .num q => fmtFixed q 1
  | .pinf => "inf"
  | .ninf => "-inf"
  | .nan => "nan"

/-- The numeric entries of a column, NaN dropped (pandas aggregation skipna). -/
def numsOf (vals : List Value) : List ℚ :=
  vals.filterMap toQ?

/-- `Series.mean()`: NaN when there is no numeric entry. -/
def meanOpt (vals : List Value) : Option ℚ :=
  let xs := numsOf vals
  if xs.length = 0 then none else some (xs.sum / (xs.length : ℚ))

/-- `Series.max()` (skipna). -/
def maxOpt (vals : List Value) : Option ℚ :=
  match numsOf vals with
  | [] => none
  | x :: xs => some (xs.foldl max x)

/-- `Series.min()` (skipna). -/
def minOpt (vals : List Value) : Option ℚ :=
  match numsOf vals with
  | [] => none
  | x :: xs => some (xs.foldl min x)

/-- The pairwise-complete observations of two columns, as
`df[[x, y]].corr()` uses. -/
def pairsOf (df : DataFrame) (x y : String) : List (ℚ × ℚ) :=
  match getCol df x, getCol df y with
  | some xs, some ys =>
    (xs.zip ys).filterMap (fun ab =>
      match toQ? ab.1, toQ? ab.2 with
      | some p, some q => some (p, q)
      | _, _ => none)
  | _, _ => []

/-- `n·Σx² − (Σx)²` — `n²` times the variance of the first coordinates. -/
def sxx (ps : List (ℚ × ℚ)) : ℚ :=
  (ps.length : ℚ) * (ps.map (fun p => p.1 * p.1)).sum
    - (ps.map Prod.fst).sum * (ps.map Prod.fst).sum

/-- `n·Σy² − (Σy)²`. -/
def syy (ps : List (ℚ × ℚ)) : ℚ :=
  (ps.length : ℚ) * (ps.map (fun p => p.2 * p.2)).sum
    - (ps.map Prod.snd).sum * (ps.map Prod.snd).sum

/-- `n·Σxy − Σx·Σy`. -/
def sxy (ps : List (ℚ × ℚ)) : ℚ :=
  (ps.length : ℚ) * (ps.map (fun p => p.1 * p.2)).sum
    - (ps.map Prod.fst).sum * (ps.map Prod.snd).sum

/-- `correlation > t` for a threshold `t ≥ 0`, where
`correlation = sxy / √(sxx · syy)`: equivalently positive `sxy` with
`sxy² > t² · sxx · syy`.  False when the correlation is NaN (zero variance or
fewer than two pairs, i.e. `sxx · syy = 0`), matching `NaN > t` in Python. -/
def corrGtB (ps : List (ℚ × ℚ)) (t : ℚ) : Bool :=
  decide (0 < sxx ps * syy ps) && decide (0 < sxy ps)
    && decide (t ^ 2 * (sxx ps * syy ps) < sxy ps ^ 2)

/-- `correlation < t` for a threshold `t < 0`: negative `sxy` with
`sxy² > t² · sxx · syy`; false when the correlation is NaN. -/
def corrLtB (ps : List (ℚ × ℚ)) (t : ℚ) : Bool :=
  decide (0 < sxx ps * syy ps) && decide (sxy ps < 0)
    && decide (t ^ 2 * (sxx ps * syy ps) < sxy ps ^ 2)

/-- The correlation threshold chain of insights.py lines 65-74. -/
def trendBandMsg (x_col y_col : String) (ps : List (ℚ × ℚ)) : String :=
  if corrGtB ps (7/10) then
    s!"There is a strong positive trend between {x_col} and {y_col}."
  else if corrGtB ps (3/10) then
    s!"There is a moderate positive trend between {x_col} and {y_col}."
  else if corrLtB ps (-(7/10)) then
    s!"There is a strong negative trend between {x_col} and {y_col}."
  else if corrLtB ps (-(3/10)) then
    s!"There is a moderate negative trend between {x_col} and {y_col}."
  else
    s!"There is no clear linear trend between {x_col} and {y_col}."

/-- The basic-statistics messages of insights.py lines 39-45 (emitted only
for a numeric metric column). -/
def trendStatMsgs (df : DataFrame) (y_col : String) : List String :=
  if numericDtype df y_col then
    let ys := (getCol df y_col).getD []
    let m := fmtOpt2 (meanOpt ys)
    let hi := fmtOpt2 (maxOpt ys)
    let lo := fmtOpt2 (minOpt ys)
    [s!"The average {y_col} is {m}.",
     s!"The highest {y_col} is {hi}, while the lowest is {lo}."]
  else []

/-- `df.groupby(g)[y].mean()` for a numeric `y`: group keys ascending, with
the NaN-skipping group mean (NaN when a group's values are all NaN). -/
def groupMeans (df : DataFrame) (gi yi : Nat) : List (Value × Option ℚ) :=
  (groupRows df gi).map (fun kg => (kg.1, meanOpt (kg.2.map (cell · yi))))

/-- Order for `sort_values(ascending=False)` on a mean series: larger means
first, NaN last. -/
def meanDescLe (a b : Value × Option ℚ) : Bool :=
  match a.2, b.2 with
  | some x, some y => decide (y ≤ x)
  | some _, none => true
  | none, none => true
  | none, some _ => false

/-- `str(key)` for a group key appearing in a message (keys are strings in
this data; a numeric key renders with one decimal as a model of `str(float)`). -/
def showVal : Value → String
  | .vS s => s
  | .vQ q => fmtFixed q 1
  | .vNA => "nan"

/-- The group-comparison messages of insights.py lines 47-58, or the
exception the block raises: aggregating a non-numeric metric fails, and
`group_means.index[0]` on an empty group series raises `IndexError`. -/
def trendGroupStep (df : DataFrame) (y_col : String) (gc : String)
    (i1 : List String) : Except (List String × String) (List String) :=
  if gc ≠ "" ∧ gc ∈ colNames df then
    if ¬ numericDtype df y_col then
      .error (i1, "No numeric types to aggregate")
    else
      match colIndex? df gc, colIndex? df y_col with
      | some gi, some yi =>
        match sortBy meanDescLe (groupMeans df gi yi) with
        | [] => .error (i1, "index 0 is out of bounds for axis 0 with size 0")
        | top :: rest =>
          let bottom := (top :: rest).getLastD top
          let tk := showVal top.1
          let bk := showVal bottom.1
          let tv := fmtOpt2 top.2
          let bv := fmtOpt2 bottom.2
          let d := fmtFl1 (diffPctFl top.2 bottom.2)
          .ok [s!"{tk} has the highest average {y_col} at {tv}.",
               s!"{bk} has the lowest average {y_col} at {bv}.",
               s!"The difference between the highest and lowest group is {d}%."]
      | _, _ => .ok []
  else .ok []

/-- The `try`-block of `generate_trend_insights` (insights.py lines 33-74):
`.ok` is a normal return of the insight list, `.error (partial, msg)` an
exception raised after `partial` had been accumulated.  The trend block
(lines 61-74) needs both columns in the correlation matrix: with a numeric
`x` but non-numeric `y`, `corr()` is 1×1 and `.iloc[0, 1]` raises. -/
def trendTry (df : DataFrame) (x_col y_col : String) (group_col : Option String) :
    Except (List String × String) (List String) :=
  if ¬ (x_col ∈ colNames df ∧ y_col ∈ colNames df) then
    .ok ["Insufficient data to generate insights."]
  else
    let i1 := trendStatMsgs df y_col
    let gstep :=
      match group_col with
      | some gc => trendGroupStep df y_col gc i1
      | none => .ok []
    match gstep with
    | .error pe => .error pe
    | .ok i2 =>
      if numericDtype df x_col then
        if numericDtype df y_col then
          .ok (i1 ++ i2 ++ [trendBandMsg x_col y_col (pairsOf df x_col y_col)])
        else .error (i1 ++ i2, "single positional indexer is out-of-bounds")
      else .ok (i1 ++ i2)

/-- `Insights.generate_trend_insights` (insights.py lines 10-79): the body
runs under `try`; an exception is caught and converted into an error insight
appended to what had been accumulated, never propagated. -/
def generate_trend_insights (df : DataFrame) (x_col y_col : String)
    (group_col : Option String) : List String :=
  match trendTry df x_col y_col group_col with
  | .ok l => l
  | .error pe => pe.1 ++ ["Error generating insights: " ++ pe.2]

/-- `df.groupby(cat)[val].agg(['mean', 'count'])`: group key, NaN-skipping
mean, and non-null count. -/
def groupMeanCounts (df : DataFrame) (ci vi : Nat) :
    List (Value × Option ℚ × Nat) :=
  (groupRows df ci).map (fun kg =>
    (kg.1, meanOpt (kg.2.map (cell · vi)), (numsOf (kg.2.map (cell · vi))).length))

/-- `Series.var()` — sample variance (ddof=1), NaN-skipping; NaN with fewer
than two numeric entries. -/
def varOpt (vals : List (Option ℚ)) : Option ℚ :=
  let xs := vals.filterMap id
  if xs.length < 2 then none
  else
    let m := xs.sum / (xs.length : ℚ)
    some ((xs.map (fun x => (x - m) ^ 2)).sum / ((xs.length : ℚ) - 1))

/-- One `- {category}: {mean} (based on {count} data points)` line
(insights.py lines 119 and 124). -/
def catRowMsg (r : Value × Option ℚ × Nat) : String :=
  let k := showVal r.1
  let m := fmtOpt2 r.2.1
  let c := toString r.2.2
  s!"- {k}: {m} (based on {c} data points)"

/-- The `try`-block of `generate_comparison_insights` (insights.py lines
102-135).  No operation in it can raise: the numeric-dtype guard precedes the
aggregation, `head(3)`/`tail(3)` truncate, and `var()` of an empty or
singleton series is NaN (compared `> 1` as false). -/
def comparisonTry (df : DataFrame) (category_col value_col : String) :
    Except (List String × String) (List String) :=
  if ¬ (category_col ∈ colNames df ∧ value_col ∈ colNames df) then
    .ok ["Insufficient data to generate comparison insights."]
  else if numericDtype df value_col then
    match colIndex? df category_col, colIndex? df value_col with
    | some ci, some vi =>
      let stats := sortBy (fun a b => meanDescLe (a.1, a.2.1) (b.1, b.2.1))
        (groupMeanCounts df ci vi)
      let top := stats.take 3
      let bottom := stats.drop (stats.length - 3)
      let overall := fmtOpt2 (meanOpt ((getCol df value_col).getD []))
      let varMsg :=
        match varOpt (stats.map (fun r => r.2.1)) with
        | some v =>
          if 1 < v then
            "There is high variance between categories, suggesting significant differences."
          else "There is relatively low variance between categories."
        | none => "There is relatively low variance between categories."
      .ok (["Top performing categories:"] ++ top.map catRowMsg
        ++ ["\nCategories with lowest performance:"] ++ bottom.map catRowMsg
        ++ [s!"\nThe overall average across all categories is {overall}."]
        ++ [varMsg])
    | _, _ => .ok []
  else .ok []

/-- `Insights.generate_comparison_insights` (insights.py lines 81-140). -/
def generate_comparison_insights (df : DataFrame)
    (category_col value_col : String) : List String :=
  match comparisonTry df category_col value_col with
  | .ok l => l
  | .error pe => pe.1 ++ ["Error generating comparison insights: " ++ pe.2]

/-- `value_counts(normalize=True).get(v, 0)`: the share of `v` among the
non-NaN entries, `0` when every entry is NaN. -/
def vcShare (vals : List Value) (v : String) : ℚ :=
  let nn := vals.countP (fun x => decide (x ≠ Value.vNA))
  if nn = 0 then 0
  else (vals.countP (fun x => decide (x = Value.vS v)) : ℚ) / (nn : ℚ)

/-- `(x == 'Yes').mean() * 100` over a group. -/
def rateYesPct (g : List (List Value)) (i : Nat) : ℚ :=
  indMean g i (fun v => decide (v = .vS "Yes")) * 100

/-- `x.isin(['Often', 'Sometimes']).mean() * 100` over a group. -/
def rateInterferePct (g : List (List Value)) (i : Nat) : ℚ :=
  indMean g i (fun v => decide (v = .vS "Often") || decide (v = .vS "Sometimes")) * 100

/-- `x.isin(['Poor', 'Fair']).mean() * 100` over a group. -/
def ratePoorFairPct (g : List (List Value)) (i : Nat) : ℚ :=
  indMean g i (fun v => decide (v = .vS "Poor") || decide (v = .vS "Fair")) * 100

/-- Ascending `sort_values` on a keyed percentage series. -/
def valAscLe (a b : Value × ℚ) : Bool := decide (a.2 ≤ b.2)

/-- The lowest/highest pair of messages of insights.py lines 178-182. -/
def bySizeMsgs (bySize : List (Value × ℚ)) : List String :=
  match bySize with
  | [] => []
  | top :: rest =>
    let bottom := (top :: rest).getLastD top
    let bk := showVal top.1
    let wk := showVal bottom.1
    let bv := fmtFixed top.2 1
    let wv := fmtFixed bottom.2 1
    [s!"Companies with {bk} employees have the lowest rate of negative mental health consequences ({bv}%).",
     s!"Companies with {wk} employees have the highest rate of negative mental health consequences ({wv}%)."]

/-- The lowest/highest pair of messages of insights.py lines 206-210. -/
def devTypeMsgs (devMh : List (Value × ℚ)) : List String :=
  match devMh with
  | [] => []
  | top :: rest =>
    let bottom := (top :: rest).getLastD top
    let bk := showVal top.1
    let wk := showVal bottom.1
    let bv := fmtFixed top.2 1
    let wv := fmtFixed bottom.2 1
    [s!"{bk}s report the lowest rates of poor mental health ({bv}%).",
     s!"{wk}s report the highest rates of poor mental health ({wv}%)."]

/-- Strictly-less on non-NaN floats (`pinf` above every number). -/
def flLtB : Fl → Fl → Bool
  | .num a, .num b => decide (a < b)
  | .num _, .pinf => true
  | .ninf, .num _ => true
  | .ninf, .pinf => true
  | _, _ => false

/-- `Series.idxmax()`: the first key attaining the maximal non-NaN value;
`none` when every value is NaN. -/
def idxmaxFl (l : List (Value × Fl)) : Option Value :=
  (l.foldl (fun acc kv =>
    if kv.2 = Fl.nan then acc
    else match acc with
      | none => some kv
      | some best => if flLtB best.2 kv.2 then some kv else best) none).map Prod.fst

/-- Integer-count division `Excellent / Poor` as a float: division by zero
gives `inf` (or NaN for `0/0`). -/
def countRatioFl (exc poor : Nat) : Fl :=
  if poor ≠ 0 then .num ((exc : ℚ) / (poor : ℚ))
  else if exc ≠ 0 then .pinf
  else .nan

/-- The rows of
`pivot_table(index='JobSatisfaction', columns='MentalHealth', aggfunc='size')`
with the `Excellent`/`Poor` ratio of insights.py line 222: for each distinct
job-satisfaction key (NaN dropped, observed with a non-NaN mental-health
value), the counts of `Excellent` and `Poor` rows.  Keys ascending. -/
def jobSatRatios (so : DataFrame) (ji mi : Nat) : List (Value × Fl) :=
  let valid := so.rows.filter (fun r =>
    decide (cell r ji ≠ Value.vNA) && decide (cell r mi ≠ Value.vNA))
  (groupKeys (valid.map (cell · ji))).map (fun k =>
    let g := valid.filter (fun r => decide (cell r ji = k))
    (k, countRatioFl (g.countP (fun r => decide (cell r mi = Value.vS "Excellent")))
          (g.countP (fun r => decide (cell r mi = Value.vS "Poor")))))

/-- The distinct non-NaN values of a column (the columns of the pivot). -/
def observedVals (df : DataFrame) (i : Nat) : List Value :=
  groupKeys (df.rows.map (cell · i))

/-- The `try`-block of `generate_mental_health_insights` (insights.py lines
161-224): six column-guarded sections, each appending its messages.  No
section raises: every aggregation is guarded by column presence, subgroup
non-emptiness, or (for `idxmax`) by `'Excellent'` being an observed column,
which forces at least one non-NaN ratio. -/
def mhTry (mh so : DataFrame) : Except (List String × String) (List String) :=
  let s1 :=
    match colIndex? mh "treatment" with
    | some ti =>
      let p := fmtFixed (vcShare (mh.rows.map (cell · ti)) "Yes" * 100) 1
      [s!"{p}% of tech professionals have sought treatment for mental health issues."]
    | none => []
  let s2 :=
    match colIndex? mh "work_interfere" with
    | some wi =>
      let vals := mh.rows.map (cell · wi)
      let os := fmtFixed ((vcShare vals "Often" + vcShare vals "Sometimes") * 100) 1
      [s!"{os}% report that mental health issues interfere with work sometimes or often."]
    | none => []
  let s3 :=
    match colIndex? mh "no_employees", colIndex? mh "mental_health_consequence" with
    | some ni, some ci =>
      bySizeMsgs (sortBy valAscLe
        ((groupRows mh ni).map (fun kg => (kg.1, rateYesPct kg.2 ci))))
    | _, _ => []
  let s4 :=
    match colIndex? mh "remote_work", colIndex? mh "work_interfere" with
    | some ri, some wi =>
      let remote := mh.rows.filter (fun r => decide (cell r ri = Value.vS "Yes"))
      let nonRemote := mh.rows.filter (fun r => decide (cell r ri = Value.vS "No"))
      if remote ≠ [] ∧ nonRemote ≠ [] then
        let rp := rateInterferePct remote wi
        let np := rateInterferePct nonRemote wi
        if rp < np then
          let d := fmtFixed (np - rp) 1
          [s!"Remote workers report {d}% less work interference from mental health issues compared to non-remote workers."]
        else
          let d := fmtFixed (rp - np) 1
          [s!"Remote workers report {d}% more work interference from mental health issues compared to non-remote workers."]
      else []
    | _, _ => []
  let s5 :=
    match colIndex? so "MentalHealth", colIndex? so "DevType" with
    | some mi, some di =>
      devTypeMsgs (sortBy valAscLe
        ((groupRows so di).map (fun kg => (kg.1, ratePoorFairPct kg.2 mi))))
    | _, _ => []
  let s6 :=
    match colIndex? so "JobSatisfaction", colIndex? so "MentalHealth" with
    | some ji, some mi =>
      let ratios := jobSatRatios so ji mi
      if ratios ≠ [] ∧ Value.vS "Excellent" ∈ observedVals so mi
          ∧ Value.vS "Poor" ∈ observedVals so mi then
        match idxmaxFl ratios with
        | some best =>
          let bk := showVal best
          [s!"Professionals who are '{bk}' with their jobs report the highest ratio of excellent to poor mental health."]
        | none => []
      else []
    | _, _ => []
  .ok (s1 ++ s2 ++ s3 ++ s4 ++ s5 ++ s6)

/-- `Insights.generate_mental_health_insights` (insights.py lines 142-229). -/
def generate_mental_health_insights (mh so : DataFrame) : List String :=
  match mhTry mh so with
  | .ok l => l
  | .error pe => pe.1 ++ ["Error generating mental health insights: " ++ pe.2]

/-! ### Theorems about the insight generators -/

theorem getCol_rows_nil (df : DataFrame) (h : df.rows = []) (c : String) :
    getCol df c = none ∨ getCol df c = some [] := by
  unfold getCol
  cases colIndex? df c with
  | none => left; rfl
  | some i => right; simp [h]

theorem getColD_rows_nil (df : DataFrame) (h : df.rows = []) (c : String) :
    (getCol df c).getD [] = [] := by
  rcases getCol_rows_nil df h c with h' | h' <;> simp [h']

theorem pairsOf_rows_nil (df : DataFrame) (h : df.rows = []) (x y : String) :
    pairsOf df x y = [] := by
  unfold pairsOf
  rcases getCol_rows_nil df h x with hx | hx <;>
    rcases getCol_rows_nil df h y with hy | hy <;>
      simp [hx, hy]

/-- The empty-dataframe case of `generate_trend_insights` with both columns
present and numeric and no grouping: two NaN statistics messages and the
no-clear-trend sentence. -/
theorem c3_amended_empty_df (df : DataFrame) (x y : String)
    (hrows : df.rows = [])
    (hx : x ∈ colNames df) (hy : y ∈ colNames df)
    (hdx : numericDtype df x = true) (hdy : numericDtype df y = true) :
    generate_trend_insights df x y none =
      [s!"The average {y} is nan.",
       s!"The highest {y} is nan, while the lowest is nan.",
       s!"There is no clear linear trend between {x} and {y}."] := by
  have h1 : trendStatMsgs df y
      = [s!"The average {y} is nan.",
         s!"The highest {y} is nan, while the lowest is nan."] := by
    unfold trendStatMsgs
    rw [getColD_rows_nil df hrows y, if_pos hdy]
    simp only [String.append_assoc]
    rfl
  have hband : trendBandMsg x y (pairsOf df x y)
      = s!"There is no clear linear trend between {x} and {y}." := by
    rw [pairsOf_rows_nil df hrows x y]
    with_unfolding_all rfl
  unfold generate_trend_insights trendTry
  rw [if_neg (by simp [hx, hy])]
  simp [hdx, hdy, h1, hband]

/-- An empty mental-health dataframe whose schema has numeric `x` and `y`. -/
def dfEmptyXY : DataFrame := ⟨[("x", .float64), ("y", .float64)], []⟩

/-- Witness for the empty-dataframe behaviour at a concrete input. -/
theorem c3_amended_empty_df_witness :
    generate_trend_insights dfEmptyXY "x" "y" none =
      ["The average y is nan.",
       "The highest y is nan, while the lowest is nan.",
       "There is no clear linear trend between x and y."] := by
  exact c3_amended_empty_df dfEmptyXY "x" "y" rfl (by decide) (by decide) rfl rfl

/-- C3 counterexample: on a zero-record dataframe whose schema contains the
requested numeric columns, `generate_trend_insights` does *not* return the
single insufficient-data sentinel (it returns three messages; the sentinel is
emitted only when a requested column is absent from the schema). -/
theorem c3_counterexample :
    generate_trend_insights dfEmptyXY "x" "y" none
      ≠ ["Insufficient data to generate insights."] := by
  with_unfolding_all decide

/-- Exact correlation 0.7: x = (1, −1, 0, 0), y = (12, −2, −4, −6). -/
def dfCorr07 : DataFrame :=
  ⟨[("x", .float64), ("y", .float64)],
   [[.vQ 1, .vQ 12], [.vQ (-1), .vQ (-2)], [.vQ 0, .vQ (-4)], [.vQ 0, .vQ (-6)]]⟩

/-- Exact correlation −0.3: x = (1, −1, 0, 0, 0, 0), y = (−3, 3, 6, 0, 5, −11). -/
def dfCorr03n : DataFrame :=
  ⟨[("x", .float64), ("y", .float64)],
   [[.vQ 1, .vQ (-3)], [.vQ (-1), .vQ 3], [.vQ 0, .vQ 6],
    [.vQ 0, .vQ 0], [.vQ 0, .vQ 5], [.vQ 0, .vQ (-11)]]⟩

/-- Exact correlation 0.75: x = (1, −1, 0, 0, 0, 0), y = (3, −3, 3, −1, 0, −2). -/
def dfCorr075 : DataFrame :=
  ⟨[("x", .float64), ("y", .float64)],
   [[.vQ 1, .vQ 3], [.vQ (-1), .vQ (-3)], [.vQ 0, .vQ 3],
    [.vQ 0, .vQ (-1)], [.vQ 0, .vQ 0], [.vQ 0, .vQ (-2)]]⟩

/-- With both columns present and numeric and no grouping, the result is the
statistics messages followed by the trend-band sentence. -/
theorem trend_no_group_shape (df : DataFrame) (x y : String)
    (hx : x ∈ colNames df) (hy : y ∈ colNames df)
    (hdx : numericDtype df x = true) (hdy : numericDtype df y = true) :
    generate_trend_insights df x y none
      = trendStatMsgs df y ++ [trendBandMsg x y (pairsOf df x y)] := by
  unfold generate_trend_insights trendTry
  rw [if_neg (by simp [hx, hy])]
  simp [hdx, hdy]

theorem trendBand_boundary_07 (x y : String) (ps : List (ℚ × ℚ))
    (h1 : 0 < sxy ps)
    (h2 : 100 * sxy ps ^ 2 = 49 * (sxx ps * syy ps)) :
    trendBandMsg x y ps
      = s!"There is a moderate positive trend between {x} and {y}." := by
  have hA : 0 < sxy ps ^ 2 := by positivity
  have hS : 0 < sxx ps * syy ps := by nlinarith
  have h7 : ¬((7/10 : ℚ) ^ 2 * (sxx ps * syy ps) < sxy ps ^ 2) := by nlinarith
  have h3 : (3/10 : ℚ) ^ 2 * (sxx ps * syy ps) < sxy ps ^ 2 := by nlinarith
  unfold trendBandMsg corrGtB
  simp [hS, h1, h7, h3]

theorem trendBand_boundary_03n (x y : String) (ps : List (ℚ × ℚ))
    (h1 : sxy ps < 0)
    (h2 : 100 * sxy ps ^ 2 = 9 * (sxx ps * syy ps)) :
    trendBandMsg x y ps
      = s!"There is no clear linear trend between {x} and {y}." := by
  have hA : 0 < sxy ps ^ 2 := by nlinarith
  have hS : 0 < sxx ps * syy ps := by nlinarith
  have hnp : ¬(0 < sxy ps) := not_lt.mpr (le_of_lt h1)
  have h7 : ¬((7/10 : ℚ) ^ 2 * (sxx ps * syy ps) < sxy ps ^ 2) := by nlinarith
  have h3 : ¬((3/10 : ℚ) ^ 2 * (sxx ps * syy ps) < sxy ps ^ 2) := by nlinarith
  unfold trendBandMsg corrGtB corrLtB
  simp [hS, h1, hnp, h7, h3]

theorem trendBand_exact_075 (x y : String) (ps : List (ℚ × ℚ))
    (h1 : 0 < sxy ps)
    (h2 : 16 * sxy ps ^ 2 = 9 * (sxx ps * syy ps)) :
    trendBandMsg x y ps
      = s!"There is a strong positive trend between {x} and {y}." := by
  have hA : 0 < sxy ps ^ 2 := by positivity
  have hS : 0 < sxx ps * syy ps := by nlinarith
  have h7 : (7/10 : ℚ) ^ 2 * (sxx ps * syy ps) < sxy ps ^ 2 := by nlinarith
  unfold trendBandMsg corrGtB
  simp [hS, h1, h7]

/-- C2 (amended): the band boundaries belong to the *lower*-magnitude band —
the comparisons of insights.py lines 65-74 are strict.  A correlation of
exactly 0.7 (positive `sxy` with `100·sxy² = 49·sxx·syy`) is worded
"moderate positive", exactly −0.3 is worded "no clear linear trend", and 0.75
is worded "strong positive". -/
theorem c2_boundary_band_wording (df : DataFrame) (x y : String)
    (hx : x ∈ colNames df) (hy : y ∈ colNames df)
    (hdx : numericDtype df x = true) (hdy : numericDtype df y = true) :
    (0 < sxy (pairsOf df x y) →
      100 * sxy (pairsOf df x y) ^ 2
          = 49 * (sxx (pairsOf df x y) * syy (pairsOf df x y)) →
      (generate_trend_insights df x y none).getLastD ""
        = s!"There is a moderate positive trend between {x} and {y}.")
    ∧ (sxy (pairsOf df x y) < 0 →
      100 * sxy (pairsOf df x y) ^ 2
          = 9 * (sxx (pairsOf df x y) * syy (pairsOf df x y)) →
      (generate_trend_insights df x y none).getLastD ""
        = s!"There is no clear linear trend between {x} and {y}.")
    ∧ (0 < sxy (pairsOf df x y) →
      16 * sxy (pairsOf df x y) ^ 2
          = 9 * (sxx (pairsOf df x y) * syy (pairsOf df x y)) →
      (generate_trend_insights df x y none).getLastD ""
        = s!"There is a strong positive trend between {x} and {y}.") := by
  have hshape := trend_no_group_shape df x y hx hy hdx hdy
  refine ⟨fun h1 h2 => ?_, fun h1 h2 => ?_, fun h1 h2 => ?_⟩ <;>
    rw [hshape, List.getLastD_concat]
  · exact trendBand_boundary_07 x y _ h1 h2
  · exact trendBand_boundary_03n x y _ h1 h2
  · exact trendBand_exact_075 x y _ h1 h2

theorem pairs07_eval :
    pairsOf dfCorr07 "x" "y" = [(1, 12), (-1, -2), (0, -4), (0, -6)] := by
  simp [pairsOf, getCol, colIndex?, colNames, dfCorr07, cell, toQ?, List.indexOf?]

theorem pairs03n_eval :
    pairsOf dfCorr03n "x" "y"
      = [(1, -3), (-1, 3), (0, 6), (0, 0), (0, 5), (0, -11)] := by
  simp [pairsOf, getCol, colIndex?, colNames, dfCorr03n, cell, toQ?, List.indexOf?]

theorem pairs075_eval :
    pairsOf dfCorr075 "x" "y"
      = [(1, 3), (-1, -3), (0, 3), (0, -1), (0, 0), (0, -2)] := by
  simp [pairsOf, getCol, colIndex?, colNames, dfCorr075, cell, toQ?, List.indexOf?]

/-- Witness: the three boundary datasets produce the amended wordings. -/
theorem c2_boundary_band_wording_witness :
    (generate_trend_insights dfCorr07 "x" "y" none).getLastD ""
      = "There is a moderate positive trend between x and y."
    ∧ (generate_trend_insights dfCorr03n "x" "y" none).getLastD ""
      = "There is no clear linear trend between x and y."
    ∧ (generate_trend_insights dfCorr075 "x" "y" none).getLastD ""
      = "There is a strong positive trend between x and y." := by
  refine ⟨?_, ?_, ?_⟩
  · exact (c2_boundary_band_wording dfCorr07 "x" "y" (by decide) (by decide)
      rfl rfl).1 (by rw [pairs07_eval]; norm_num [sxy])
      (by rw [pairs07_eval]; norm_num [sxy, sxx, syy])
  · exact (c2_boundary_band_wording dfCorr03n "x" "y" (by decide) (by decide)
      rfl rfl).2.1 (by rw [pairs03n_eval]; norm_num [sxy])
      (by rw [pairs03n_eval]; norm_num [sxy, sxx, syy])
  · exact (c2_boundary_band_wording dfCorr075 "x" "y" (by decide) (by decide)
      rfl rfl).2.2 (by rw [pairs075_eval]; norm_num [sxy])
      (by rw [pairs075_eval]; norm_num [sxy, sxx, syy])

/-- C2 counterexample: `dfCorr07` has Pearson correlation exactly 0.7
(positive `sxy` with `100·sxy² = 49·sxx·syy`), yet the generated trend
insight is *not* the "strong positive" wording the claim requires — the
strict `>` on line 65 sends the boundary to the moderate band. -/
theorem c2_counterexample :
    0 < sxy (pairsOf dfCorr07 "x" "y")
    ∧ 100 * sxy (pairsOf dfCorr07 "x" "y") ^ 2
        = 49 * (sxx (pairsOf dfCorr07 "x" "y") * syy (pairsOf dfCorr07 "x" "y"))
    ∧ (generate_trend_insights dfCorr07 "x" "y" none).getLastD ""
        ≠ "There is a strong positive trend between x and y." := by
  have h1 : 0 < sxy (pairsOf dfCorr07 "x" "y") := by
    rw [pairs07_eval]; norm_num [sxy]
  have h2 : 100 * sxy (pairsOf dfCorr07 "x" "y") ^ 2
      = 49 * (sxx (pairsOf dfCorr07 "x" "y") * syy (pairsOf dfCorr07 "x" "y")) := by
    rw [pairs07_eval]; norm_num [sxy, sxx, syy]
  refine ⟨h1, h2, ?_⟩
  rw [trend_no_group_shape dfCorr07 "x" "y" (by decide) (by decide) rfl rfl,
    List.getLastD_concat, trendBand_boundary_07 "x" "y" _ h1 h2]
  decide

/-- Witness: dropping the country filter entry is a no-op on a dataframe
without a `Country` column. -/
theorem c4_absent_column_filter_noop_witness :
    apply_filters dfGenderOnly
        (eraseField { country := some "United States" } FilterField.country)
      = apply_filters dfGenderOnly { country := some "United States" } := by
  exact c4_absent_column_filter_noop dfGenderOnly
    { country := some "United States" } FilterField.country (by decide)

/-- C6 (amended): `generate_trend_insights` and `generate_comparison_insights`
return their single insufficient-data sentinel when a requested column is
absent, and an exception raised inside the trend body (here: `index[0]` on an
empty group series) is caught and converted into an error insight carrying the
failure reason, appended after the partial output — it never propagates.
`generate_mental_health_insights` has no such sentinel (see the
counterexample): it silently skips sections whose columns are absent. -/
theorem c6_sentinel_and_catch :
    (∀ (df : DataFrame) (x y : String) (g : Option String),
        (x ∉ colNames df ∨ y ∉ colNames df) →
        generate_trend_insights df x y g
          = ["Insufficient data to generate insights."])
    ∧ (∀ (df : DataFrame) (c v : String),
        (c ∉ colNames df ∨ v ∉ colNames df) →
        generate_comparison_insights df c v
          = ["Insufficient data to generate comparison insights."])
    ∧ (∀ (df : DataFrame) (x y gc : String) (gi yi : Nat),
        x ∈ colNames df → y ∈ colNames df → numericDtype df y = true →
        gc ≠ "" → gc ∈ colNames df →
        colIndex? df gc = some gi → colIndex? df y = some yi →
        groupRows df gi = [] →
        generate_trend_insights df x y (some gc)
          = trendStatMsgs df y
            ++ ["Error generating insights: index 0 is out of bounds for axis 0 with size 0"]) := by
  refine ⟨?_, ?_, ?_⟩
  · intro df x y g h
    unfold generate_trend_insights trendTry
    rw [if_pos (by tauto)]
  · intro df c v h
    unfold generate_comparison_insights comparisonTry
    rw [if_pos (by tauto)]
  · intro df x y gc gi yi hx hy hdy hgc hgcin hgi hyi hgroups
    have hstep : trendGroupStep df y gc (trendStatMsgs df y)
        = .error (trendStatMsgs df y,
            "index 0 is out of bounds for axis 0 with size 0") := by
      unfold trendGroupStep
      rw [if_pos ⟨hgc, hgcin⟩, if_neg (by simp [hdy]), hgi, hyi]
      simp only [groupMeans, hgroups, List.map_nil]
      rfl
    unfold generate_trend_insights trendTry
    rw [if_neg (by simp [hx, hy])]
    simp only [hstep]
    rfl

/-- A dataframe with no columns at all. -/
def dfNoCols : DataFrame := ⟨[], []⟩

/-- An empty dataframe with numeric `x`, `y` and a group column `g`. -/
def dfEmptyG : DataFrame :=
  ⟨[("x", .float64), ("y", .float64), ("g", .object)], []⟩

/-- Witness: the sentinels and the converted exception at concrete inputs. -/
theorem c6_sentinel_and_catch_witness :
    generate_trend_insights dfNoCols "x" "y" none
      = ["Insufficient data to generate insights."]
    ∧ generate_comparison_insights dfNoCols "cat" "val"
      = ["Insufficient data to generate comparison insights."]
    ∧ generate_trend_insights dfEmptyG "x" "y" (some "g")
      = trendStatMsgs dfEmptyG "y"
        ++ ["Error generating insights: index 0 is out of bounds for axis 0 with size 0"] := by
  refine ⟨?_, ?_, ?_⟩
  · exact c6_sentinel_and_catch.1 dfNoCols "x" "y" none (by decide)
  · exact c6_sentinel_and_catch.2.1 dfNoCols "cat" "val" (by decide)
  · exact c6_sentinel_and_catch.2.2 dfEmptyG "x" "y" "g" 2 1 (by decide)
      (by decide) rfl (by decide) (by decide) rfl rfl (by with_unfolding_all rfl)

/-- C6 counterexample: `generate_mental_health_insights` violates the claimed
missing-column policy — with every required column absent it returns the empty
list, not a single "insufficient data" sentinel message. -/
theorem c6_counterexample :
    generate_mental_health_insights dfNoCols dfNoCols = []
    ∧ ∀ s : String, generate_mental_health_insights dfNoCols dfNoCols ≠ [s] := by
  have h : generate_mental_health_insights dfNoCols dfNoCols = [] := rfl
  refine ⟨h, ?_⟩
  intro s
  rw [h]
  exact fun hc => List.noConfusion hc
